import Mathlib

/-!
Verification of the Gemini–Google Drive connector
(`gemini_drive_connector`): a shallow embedding, in Lean 4, of the parts
of the code the specification's claims are about, together with theorems
settling each claim.

Embedded modules:
* `config/settings.py` — the constants.
* `gemini/file_store.py` — the import poller (`_wait_for_operation`,
  `_calculate_next_poll_interval`, `_validate_operation_completion`).
* `drive/files.py` — pagination (`_fetch_all_files`, `_check_page_limit`),
  the size guard (`_validate_file_size`) and the chunked downloader
  (`_download_to_buffer`, `_validate_chunk_count`).
* `connector.py` — the batch orchestrator (`_process_all_files`,
  `_process_file_safely`, `_process_file`, `_validate_uploaded_file_name`).

Python exceptions are modelled by an inductive `PyError` carrying the
message; fallible code returns `Except PyError α`.  Side-effecting log
calls (loguru) are modelled by returning a `List LogEvent`.  Python
floats appearing in the backoff computation are modelled by `ℚ`: every
value the loop can produce (products of `1.0` and `1.5`, capped at `10`)
is exactly representable in binary floating point, so the rational
semantics agrees with the float semantics on this code.  Python
truthiness of an optional string is modelled by `truthy`.
-/

/-- Python exception taxonomy used by the connector.  Each constructor is
one of the exception classes the code raises or catches; `otherException`
stands for any other subclass of `Exception`. -/
inductive PyError where
  | valueError (msg : String)
  | typeError (msg : String)
  | keyError (msg : String)
  | attributeError (msg : String)
  | osError (msg : String)
  | timeoutError (msg : String)
  | fileNotFoundError (msg : String)
  | permissionError (msg : String)
  | runtimeError (msg : String)
  | otherException (msg : String)
deriving DecidableEq, Repr

/-- Loguru log levels used by the embedded code. -/
inductive LogLevel where
  | debug
  | info
  | success
  | warning
  | error
  | exception
deriving DecidableEq, Repr

/-- One loguru call: level and message. -/
structure LogEvent where
  level : LogLevel
  msg : String
deriving DecidableEq, Repr

/-- Python truthiness of an optional string: `None` and `""` are falsy,
any non-empty string is truthy. -/
def truthy : Option String → Bool
  | none => false
  | some s => !s.isEmpty

/-! ## `config/settings.py` -/

/-- Setting `MAX_FILE_SIZE_MB = 100`. -/
def MAX_FILE_SIZE_MB : ℕ := 100

/-- Setting `MAX_POLL_ATTEMPTS = 60`. -/
def MAX_POLL_ATTEMPTS : ℕ := 60

/-- Setting `POLL_INTERVAL = 3`. -/
def POLL_INTERVAL : ℕ := 3

/-- Setting `INITIAL_POLL_INTERVAL = 1`. -/
def INITIAL_POLL_INTERVAL : ℚ := 1

/-- Setting `MAX_POLL_INTERVAL = 10`. -/
def MAX_POLL_INTERVAL : ℚ := 10

/-! ## `gemini/file_store.py` — the import poller -/

/-- A `genai.types.Operation` as the poller sees it: the `done` flag and
the `error` field (an optional payload whose Python truthiness decides
failure; we carry it as an optional string). -/
structure Operation where
  done : Bool
  error : Option String
deriving DecidableEq, Repr

/-- Embeds `GeminiFileStore._calculate_next_poll_interval`:
`if poll_attempts > 3: return min(current_interval * 1.5, MAX_POLL_INTERVAL)`
else `return current_interval`. -/
def calculateNextPollInterval (pollAttempts : ℕ) (currentInterval : ℚ) : ℚ :=
  if pollAttempts > 3 then min (currentInterval * (3 / 2)) MAX_POLL_INTERVAL
  else currentInterval

/-- The while loop of `GeminiFileStore._wait_for_operation`.  `polls n`
is the operation returned by the `(n+1)`-th call to
`self._poll_operation_status` (the code re-fetches once per iteration,
so the fetch performed in the iteration entered with `poll_attempts = n`
is call number `n+1`).  Returns the final operation, the final
`poll_attempts` counter (= number of status fetches performed), and the
list of sleep intervals passed to `time.sleep`, in order. -/
def waitLoop (polls : ℕ → Operation) (operation : Operation)
    (pollAttempts : ℕ) (currentInterval : ℚ) : Operation × ℕ × List ℚ :=
  if h : operation.done = false ∧ pollAttempts < MAX_POLL_ATTEMPTS then
    let operationNext := polls pollAttempts
    let pollAttemptsNext := pollAttempts + 1
    let intervalNext := calculateNextPollInterval pollAttemptsNext currentInterval
    let rest := waitLoop polls operationNext pollAttemptsNext intervalNext
    (rest.1, rest.2.1, currentInterval :: rest.2.2)
  else
    (operation, pollAttempts, [])
termination_by MAX_POLL_ATTEMPTS - pollAttempts
decreasing_by
  exact Nat.sub_lt_sub_left h.2 (Nat.lt_succ_self _)

/-- Message of the `TimeoutError` raised by
`_validate_operation_completion`. -/
def timeoutMessage (fileName : String) : String :=
  let timeoutSeconds := MAX_POLL_ATTEMPTS * POLL_INTERVAL
  s!"Indexing operation for {fileName} timed out after {timeoutSeconds} seconds"

/-- Message of the `RuntimeError` raised by
`_validate_operation_completion` when the finished operation carries a
truthy error. -/
def importFailedMessage (fileName : String) (errorPayload : String) : String :=
  s!"Indexing operation failed for {fileName}: {errorPayload}"

/-- Embeds `GeminiFileStore._validate_operation_completion`: raise
`TimeoutError` if the operation is still not done, `RuntimeError` if it
is done but carries a truthy `error`, succeed otherwise.  (In the
embedding the `error` attribute always exists, so Python's
`hasattr(operation, "error")` is `True`.) -/
def validateOperationCompletion (operation : Operation) (fileName : String) :
    Except PyError Unit :=
  if operation.done = false then
    .error (.timeoutError (timeoutMessage fileName))
  else if truthy operation.error then
    .error (.runtimeError (importFailedMessage fileName (operation.error.getD "")))
  else
    .ok ()

/-- Embeds `GeminiFileStore._wait_for_operation`: run the polling loop from
`poll_attempts = 0` and `current_interval = INITIAL_POLL_INTERVAL`, then
validate the final operation.  Returns the outcome together with the
number of status fetches performed and the sleep intervals used. -/
def waitForOperation (polls : ℕ → Operation) (operation : Operation)
    (fileName : String) : Except PyError Unit × ℕ × List ℚ :=
  let r := waitLoop polls operation 0 INITIAL_POLL_INTERVAL
  (validateOperationCompletion r.1 fileName, r.2.1, r.2.2)

/-! ## `drive/files.py` — pagination -/

/-- A Drive file-metadata record as returned by the listing (fields
`id, name, mimeType, size`; any of them may be absent in a response). -/
structure FileRec where
  id : Option String
  name : Option String
  mimeType : Option String
  size : Option ℕ
deriving DecidableEq, Repr

/-- One page of a `files().list` response: the `files` list and the
optional `nextPageToken`. -/
structure Page where
  files : List FileRec
  nextPageToken : Option String
deriving DecidableEq, Repr

/-- Embeds `DriveFileHandler._get_max_pages`: `return 100`. -/
def getMaxPages : ℕ := 100

/-- The pagination loop of `DriveFileHandler._fetch_all_files`.
`pages n` is the response of the `(n+1)`-th `_fetch_page` call (the page
fetched in the iteration entered with `page_count = n`, since
`page_count` is incremented exactly once per fetched page that carries a
truthy `nextPageToken`).  The Python `if not page_token: break` is
truthiness on the optional token.  Returns the accumulated file list and
the final `page_count`. -/
def fetchAllFilesLoop (pages : ℕ → Page) (maxPages pageCount : ℕ)
    (files : List FileRec) : List FileRec × ℕ :=
  if h : pageCount < maxPages then
    let resp := pages pageCount
    let filesNext := files ++ resp.files
    if truthy resp.nextPageToken then
      fetchAllFilesLoop pages maxPages (pageCount + 1) filesNext
    else
      (filesNext, pageCount)
  else
    (files, pageCount)
termination_by maxPages - pageCount
decreasing_by
  exact Nat.sub_lt_sub_left h (Nat.lt_succ_self _)

/-- The warning message of `DriveFileHandler._check_page_limit`. -/
def pageLimitWarning (maxPages : ℕ) : String :=
  s!"Reached maximum page limit ({maxPages}), some files may be missing"

/-- Embeds `DriveFileHandler._check_page_limit`: log a warning when
`page_count >= max_pages`; never raises. -/
def checkPageLimit (pageCount : ℕ) : List LogEvent :=
  if pageCount ≥ getMaxPages then
    [⟨.warning, pageLimitWarning getMaxPages⟩]
  else
    []

/-- Embeds `DriveFileHandler._fetch_all_files` on a listing stream (the
exception paths re-raise errors of the page fetches; on a stream whose
fetches succeed, the function is the loop followed by the page-limit
check).  Returns the accumulated files and the warnings logged. -/
def fetchAllFiles (pages : ℕ → Page) : List FileRec × List LogEvent :=
  let r := fetchAllFilesLoop pages getMaxPages 0 []
  (r.1, checkPageLimit r.2)

/-! ## `drive/files.py` — the size guard -/

/-- The metadata fetched by `_validate_file_size`
(`fields="size, name"`); either field may be absent. -/
structure SizeMetadata where
  size : Option ℕ
  name : Option String
deriving DecidableEq, Repr

/-- Fixed-point one-decimal rendering of a non-negative rational, the
model of Python's `f"{x:.1f}"` in the too-large message (rounding-mode
details at exact ties do not affect any claim). -/
def formatOneDecimal (q : ℚ) : String :=
  let tenths : ℤ := round (q * 10)
  s!"{tenths / 10}.{(tenths % 10).natAbs}"

/-- The `ValueError` message of the size guard. -/
def tooLargeMessage (fileName : String) (fileSizeMegabytes : ℚ) : String :=
  let sizeText := formatOneDecimal fileSizeMegabytes
  s!"File {fileName} is too large ({sizeText}MB). Maximum size is {MAX_FILE_SIZE_MB}MB"

/-- The empty-file warning of the size guard. -/
def emptyFileWarning (fileName : String) : String :=
  s!"File {fileName} is empty"

/-- Embeds `DriveFileHandler._validate_file_size`, given the fetched metadata:
`file_size_bytes = int(metadata.get("size", 0))`,
`file_name = metadata.get("name", "unknown")`; warn when the size is 0;
raise `ValueError` when `size / (1024*1024) > MAX_FILE_SIZE_MB`.
Returns the outcome and the warnings logged. -/
def validateFileSize (metadata : SizeMetadata) :
    Except PyError Unit × List LogEvent :=
  let fileSizeBytes : ℕ := metadata.size.getD 0
  let fileName : String := metadata.name.getD "unknown"
  let warnings : List LogEvent :=
    if fileSizeBytes = 0 then [⟨.warning, emptyFileWarning fileName⟩] else []
  let fileSizeMegabytes : ℚ := (fileSizeBytes : ℚ) / (1024 * 1024)
  if fileSizeMegabytes > (MAX_FILE_SIZE_MB : ℚ) then
    (.error (.valueError (tooLargeMessage fileName fileSizeMegabytes)), warnings)
  else
    (.ok (), warnings)

/-! ## `drive/files.py` — the chunked downloader -/

/-- A download stream as `MediaIoBaseDownload` presents it: the `(n+1)`-th
`next_chunk` call appends `chunk n` (a byte list) to the buffer and
returns the completion flag `completeAt n`. -/
structure ChunkStream where
  chunk : ℕ → List ℕ
  completeAt : ℕ → Bool

/-- Embeds `DriveFileHandler._get_max_chunks`: `return MAX_FILE_SIZE_MB`. -/
def getMaxChunks : ℕ := MAX_FILE_SIZE_MB

/-- The download loop of `DriveFileHandler._download_to_buffer`: while
`chunk_count < max_chunks`, download the next chunk into the buffer;
break when the downloader reports completion, else increment
`chunk_count`.  The call made in the iteration entered with
`chunk_count = n` is `next_chunk` call number `n+1`.  Returns the final
`chunk_count` and the buffer contents. -/
def downloadToBufferLoop (s : ChunkStream) (maxChunks chunkCount : ℕ)
    (buffer : List ℕ) : ℕ × List ℕ :=
  if h : chunkCount < maxChunks then
    let bufferNext := buffer ++ s.chunk chunkCount
    if s.completeAt chunkCount then
      (chunkCount, bufferNext)
    else
      downloadToBufferLoop s maxChunks (chunkCount + 1) bufferNext
  else
    (chunkCount, buffer)
termination_by maxChunks - chunkCount
decreasing_by
  exact Nat.sub_lt_sub_left h (Nat.lt_succ_self _)

/-- Embeds `DriveFileHandler._validate_chunk_count`: raise
`ValueError("File download exceeded size limit")` when
`chunk_count >= max_chunks`. -/
def validateChunkCount (chunkCount maxChunks : ℕ) : Except PyError Unit :=
  if chunkCount ≥ maxChunks then
    .error (.valueError "File download exceeded size limit")
  else
    .ok ()

/-- Embeds `DriveFileHandler._download_to_buffer` followed by
`_read_buffer_content` (`buffer.seek(0); buffer.read()`): run the chunk
loop from an empty buffer, validate the chunk count, and on success
return the assembled bytes read from the start of the buffer. -/
def downloadToBuffer (s : ChunkStream) : Except PyError (List ℕ) :=
  let r := downloadToBufferLoop s getMaxChunks 0 []
  match validateChunkCount r.1 getMaxChunks with
  | .error e => .error e
  | .ok _ => .ok r.2

/-! ## `connector.py` — the batch orchestrator -/

/-- The handle returned by `client.files.upload`
(`genai.types.File`): its `name` attribute, optional in the API. -/
structure UploadedFile where
  name : Option String
deriving DecidableEq, Repr

/-- The external effects `_process_file` composes, as fallible
functions: `file_handler.download_file`, `self._file_store.upload_file`
and `self._file_store.import_file` (upload and import take the
arguments the connector passes them). -/
structure FileOps where
  download : String → Except PyError (List ℕ)
  upload : List ℕ → String → String → Except PyError UploadedFile
  importFile : String → Except PyError Unit

/-- The `RuntimeError` message of
`GeminiDriveConnector._validate_uploaded_file_name`. -/
def noNameMessage (originalName : String) : String :=
  s!"Uploaded file {originalName} has no name attribute"

/-- Embeds `GeminiDriveConnector._validate_uploaded_file_name`:
`if not uploaded_name: raise RuntimeError(...)`, else return the name
(Python falsiness of the optional string: `None` or `""`). -/
def validateUploadedFileName (uploaded : UploadedFile)
    (originalName : String) : Except PyError String :=
  if truthy uploaded.name then
    .ok (uploaded.name.getD "")
  else
    .error (.runtimeError (noNameMessage originalName))

/-- Embeds `GeminiDriveConnector._process_file`: download, upload, validate the
returned handle's name, then import under that name; any step's failure
aborts the remaining steps for this file. -/
def processFile (ops : FileOps) (fileId fileName mimeType : String) :
    Except PyError Unit := do
  let fileContent ← ops.download fileId
  let uploaded ← ops.upload fileContent fileName mimeType
  let uploadedFileName ← validateUploadedFileName uploaded fileName
  ops.importFile uploadedFileName

/-- Whether `_process_file_safely` catches an error in its first,
anticipated `except` clause (`OSError, ValueError, KeyError,
AttributeError, TimeoutError, FileNotFoundError, PermissionError`); in
Python `FileNotFoundError` and `PermissionError` are subclasses of
`OSError` and `ValueError` covers the size guard, `KeyError` absent
dict keys, `AttributeError` absent attributes. -/
def isAnticipated : PyError → Bool
  | .osError _ => true
  | .valueError _ => true
  | .keyError _ => true
  | .attributeError _ => true
  | .timeoutError _ => true
  | .fileNotFoundError _ => true
  | .permissionError _ => true
  | _ => false

/-- The log event `_process_file_safely` emits for a caught error:
`logger.error(f"Error processing {file_name}: {error}")` for the
anticipated taxonomy, `logger.exception(f"Unexpected error processing
{file_name}: {error}")` for any other `Exception`. -/
def caughtErrorEvent (fileName : String) (e : PyError) : LogEvent :=
  match e with
  | .valueError m => ⟨.error, s!"Error processing {fileName}: {m}"⟩
  | .typeError m => ⟨.exception, s!"Unexpected error processing {fileName}: {m}"⟩
  | .keyError m => ⟨.error, s!"Error processing {fileName}: {m}"⟩
  | .attributeError m => ⟨.error, s!"Error processing {fileName}: {m}"⟩
  | .osError m => ⟨.error, s!"Error processing {fileName}: {m}"⟩
  | .timeoutError m => ⟨.error, s!"Error processing {fileName}: {m}"⟩
  | .fileNotFoundError m => ⟨.error, s!"Error processing {fileName}: {m}"⟩
  | .permissionError m => ⟨.error, s!"Error processing {fileName}: {m}"⟩
  | .runtimeError m => ⟨.exception, s!"Unexpected error processing {fileName}: {m}"⟩
  | .otherException m => ⟨.exception, s!"Unexpected error processing {fileName}: {m}"⟩

/-- Embeds `GeminiDriveConnector._process_file_safely`: run `_process_file`;
catch every `Exception` (the anticipated tuple in the first clause,
everything else in the second), log it with the file name, and return —
the function never propagates a per-file error.  Total by construction:
its result type is the list of log events, not an `Except`. -/
def processFileSafely (ops : FileOps) (fileId fileName mimeType : String) :
    List LogEvent :=
  match processFile ops fileId fileName mimeType with
  | .ok _ => []
  | .error e => [caughtErrorEvent fileName e]

/-- The per-file progress log of `_process_all_files`:
`logger.info(f"Processing file {i}/{n}: {file_name} ({mime_type})")`. -/
def processingEvent (fileIndex total : ℕ) (fileName mimeType : String) :
    LogEvent :=
  ⟨.info, s!"Processing file {fileIndex}/{total}: {fileName} ({mimeType})"⟩

/-- The loop body sequence of `GeminiDriveConnector._process_all_files`
from the 1-based index `fileIndex` on: for each file, read `id`, `name`
and `mimeType` (defaulting the latter to `application/octet-stream`),
log progress, and call `_process_file_safely`. -/
def processAllFilesFrom (ops : FileOps) (total fileIndex : ℕ) :
    List FileRec → List LogEvent
  | [] => []
  | fileInfo :: rest =>
    let fileId := fileInfo.id.getD ""
    let fileName := fileInfo.name.getD ""
    let mimeType := fileInfo.mimeType.getD "application/octet-stream"
    processingEvent fileIndex total fileName mimeType
      :: processFileSafely ops fileId fileName mimeType
      ++ processAllFilesFrom ops total (fileIndex + 1) rest

/-- Embeds `GeminiDriveConnector._process_all_files`: enumerate the files from
1 and process each through the failure-isolating boundary.  (In the
source, `file_info["id"]` and `file_info["name"]` are mandatory; the
listing requests both fields, and the embedding reads them with a
default.)  Total: returns the log of the whole batch. -/
def processAllFiles (ops : FileOps) (files : List FileRec) : List LogEvent :=
  processAllFilesFrom ops files.length 1 files

/-! ## Helper lemmas about the import poller -/

/-- One unfolding of the polling loop when the guard holds: the current
interval is slept, then the loop continues on the re-fetched operation. -/
theorem waitLoop_sleeps_cons (polls : ℕ → Operation) (operation : Operation)
    (pollAttempts : ℕ) (currentInterval : ℚ)
    (hop : operation.done = false) (ha : pollAttempts < MAX_POLL_ATTEMPTS) :
    (waitLoop polls operation pollAttempts currentInterval).2.2 =
      currentInterval ::
        (waitLoop polls (polls pollAttempts) (pollAttempts + 1)
          (calculateNextPollInterval (pollAttempts + 1) currentInterval)).2.2 := by
  rw [waitLoop]
  simp [hop, ha]

/-- The next interval never shrinks, stays positive, and stays at or
below `MAX_POLL_INTERVAL`, provided the current one is positive and at
or below `MAX_POLL_INTERVAL`. -/
theorem calculateNextPollInterval_bounds (pollAttempts : ℕ) (currentInterval : ℚ)
    (h0 : 0 < currentInterval) (h10 : currentInterval ≤ MAX_POLL_INTERVAL) :
    currentInterval ≤ calculateNextPollInterval pollAttempts currentInterval ∧
    0 < calculateNextPollInterval pollAttempts currentInterval ∧
    calculateNextPollInterval pollAttempts currentInterval ≤ MAX_POLL_INTERVAL := by
  unfold calculateNextPollInterval
  split
  · refine ⟨le_min (by linarith) h10, lt_min (by linarith) (by norm_num [MAX_POLL_INTERVAL]), min_le_right _ _⟩
  · exact ⟨le_refl _, h0, h10⟩

/-- Invariant of the sleep-interval trace: the trace is monotonically
non-decreasing, bounded by `MAX_POLL_INTERVAL`, and (when non-empty)
begins with the interval the loop was entered with. -/
theorem waitLoop_sleeps_invariant (polls : ℕ → Operation) :
    ∀ (fuel : ℕ) (operation : Operation) (pollAttempts : ℕ) (currentInterval : ℚ),
      MAX_POLL_ATTEMPTS - pollAttempts = fuel →
      0 < currentInterval → currentInterval ≤ MAX_POLL_INTERVAL →
      List.Chain' (· ≤ ·) (waitLoop polls operation pollAttempts currentInterval).2.2 ∧
      (∀ x ∈ (waitLoop polls operation pollAttempts currentInterval).2.2,
        x ≤ MAX_POLL_INTERVAL) ∧
      ((waitLoop polls operation pollAttempts currentInterval).2.2 = [] ∨
        (waitLoop polls operation pollAttempts currentInterval).2.2.head? =
          some currentInterval) := by
  intro fuel
  induction fuel with
  | zero =>
    intro operation pollAttempts currentInterval hfuel _ _
    have ha : ¬ pollAttempts < MAX_POLL_ATTEMPTS := by omega
    rw [waitLoop]
    simp [ha]
  | succ n ih =>
    intro operation pollAttempts currentInterval hfuel h0 h10
    by_cases hop : operation.done = false
    · have ha : pollAttempts < MAX_POLL_ATTEMPTS := by omega
      obtain ⟨hle, hpos, hmax⟩ :=
        calculateNextPollInterval_bounds (pollAttempts + 1) currentInterval h0 h10
      obtain ⟨ihChain, ihBound, ihHead⟩ :=
        ih (polls pollAttempts) (pollAttempts + 1)
          (calculateNextPollInterval (pollAttempts + 1) currentInterval)
          (by omega) hpos hmax
      rw [waitLoop_sleeps_cons polls operation pollAttempts currentInterval hop ha]
      refine ⟨?_, ?_, ?_⟩
      · rw [List.chain'_cons']
        refine ⟨?_, ihChain⟩
        intro y hy
        rcases ihHead with hnil | hhead
        · simp [hnil] at hy
        · rw [hhead] at hy
          simp at hy
          exact hy ▸ hle
      · intro x hx
        rcases List.mem_cons.mp hx with hx | hx
        · exact hx ▸ le_trans hle hmax
        · exact ihBound x hx
      · right
        simp
    · rw [waitLoop]
      simp [hop]

/-- When every status fetch reports not-done (and the initial handle is
not done), the loop exhausts all `MAX_POLL_ATTEMPTS` fetches and ends on
a not-done operation. -/
theorem waitLoop_never_done (polls : ℕ → Operation)
    (hpolls : ∀ n, (polls n).done = false) :
    ∀ (fuel : ℕ) (operation : Operation) (pollAttempts : ℕ) (currentInterval : ℚ),
      MAX_POLL_ATTEMPTS - pollAttempts = fuel →
      pollAttempts ≤ MAX_POLL_ATTEMPTS →
      operation.done = false →
      (waitLoop polls operation pollAttempts currentInterval).1.done = false ∧
      (waitLoop polls operation pollAttempts currentInterval).2.1 = MAX_POLL_ATTEMPTS := by
  intro fuel
  induction fuel with
  | zero =>
    intro operation pollAttempts currentInterval hfuel hle hop
    have ha : ¬ pollAttempts < MAX_POLL_ATTEMPTS := by omega
    have : pollAttempts = MAX_POLL_ATTEMPTS := by omega
    rw [waitLoop]
    simp [ha, hop, this]
  | succ n ih =>
    intro operation pollAttempts currentInterval hfuel hle hop
    have ha : pollAttempts < MAX_POLL_ATTEMPTS := by omega
    rw [waitLoop]
    simp only [hop, ha, and_self, dite_true, true_and]
    exact ih (polls pollAttempts) (pollAttempts + 1)
      (calculateNextPollInterval (pollAttempts + 1) currentInterval)
      (by omega) (by omega) (hpolls pollAttempts)

/-- A handle that is already done short-circuits the loop: no fetch, no
sleep. -/
theorem waitLoop_done (polls : ℕ → Operation) (operation : Operation)
    (pollAttempts : ℕ) (currentInterval : ℚ) (hop : operation.done = true) :
    waitLoop polls operation pollAttempts currentInterval =
      (operation, pollAttempts, []) := by
  rw [waitLoop]
  simp [hop]

/-- The first six sleep intervals of a run whose status fetches keep
reporting not-done. -/
theorem waitLoop_sleeps_take_six (polls : ℕ → Operation) (operation : Operation)
    (hop : operation.done = false) (hpolls : ∀ n, (polls n).done = false) :
    (waitLoop polls operation 0 INITIAL_POLL_INTERVAL).2.2.take 6 =
      [1, 1, 1, 1, 3 / 2, 9 / 4] := by
  rw [waitLoop_sleeps_cons polls operation 0 INITIAL_POLL_INTERVAL hop
    (by norm_num [MAX_POLL_ATTEMPTS])]
  norm_num [calculateNextPollInterval, INITIAL_POLL_INTERVAL, MAX_POLL_INTERVAL]
  rw [waitLoop_sleeps_cons polls (polls 0) 1 1 (hpolls 0)
    (by norm_num [MAX_POLL_ATTEMPTS])]
  norm_num [calculateNextPollInterval]
  rw [waitLoop_sleeps_cons polls (polls 1) 2 1 (hpolls 1)
    (by norm_num [MAX_POLL_ATTEMPTS])]
  norm_num [calculateNextPollInterval]
  rw [waitLoop_sleeps_cons polls (polls 2) 3 1 (hpolls 2)
    (by norm_num [MAX_POLL_ATTEMPTS])]
  norm_num [calculateNextPollInterval, MAX_POLL_INTERVAL]
  rw [waitLoop_sleeps_cons polls (polls 3) 4 (3 / 2) (hpolls 3)
    (by norm_num [MAX_POLL_ATTEMPTS])]
  norm_num [calculateNextPollInterval, MAX_POLL_INTERVAL]
  rw [waitLoop_sleeps_cons polls (polls 4) 5 (9 / 4) (hpolls 4)
    (by norm_num [MAX_POLL_ATTEMPTS])]
  simp [List.take]

/-! ## Claim theorems — the import poller -/

/-- Claim C1, counterexample.  The claim's interval sequence
`1.0, 1.0, 1.0, 1.5, 2.25, 3.375` is not what the code produces on a job
that remains not-done: the backoff multiplication first affects the
sleep before attempt 5, not attempt 4, because
`_calculate_next_poll_interval` is called with the already-incremented
attempt counter. -/
theorem C1_counterexample :
    ¬ ((waitForOperation (fun _ => Operation.mk false none)
        (Operation.mk false none) "file").2.2.take 6 =
      [1, 1, 1, 3 / 2, 9 / 4, 27 / 8]) := by
  intro hclaim
  have h6 := waitLoop_sleeps_take_six (fun _ => Operation.mk false none)
    (Operation.mk false none) rfl (fun _ => rfl)
  rw [show (waitForOperation (fun _ => Operation.mk false none)
      (Operation.mk false none) "file").2.2 =
      (waitLoop (fun _ => Operation.mk false none)
        (Operation.mk false none) 0 INITIAL_POLL_INTERVAL).2.2 from rfl] at hclaim
  rw [h6] at hclaim
  exact absurd hclaim (by norm_num)

/-- Claim C1, amended.  For every import job that remains not-done, with
`initialInterval = 1.0` and `maxInterval = 10.0`, the sleep intervals
used before poll attempts 1 through 6 are exactly
`1.0, 1.0, 1.0, 1.0, 1.5, 2.25` seconds: the interval stays at
`initialInterval` for the first 4 attempts and is multiplied by 1.5
(capped at `maxInterval`) from attempt 5 onward. -/
theorem C1_amended_backoff_sequence (polls : ℕ → Operation)
    (operation : Operation) (fileName : String)
    (hop : operation.done = false) (hpolls : ∀ n, (polls n).done = false) :
    (waitForOperation polls operation fileName).2.2.take 6 =
      [1, 1, 1, 1, 3 / 2, 9 / 4] :=
  waitLoop_sleeps_take_six polls operation hop hpolls

/-- Witness for C1's amended theorem at a concrete never-done job. -/
theorem C1_amended_backoff_sequence_witness :
    (Operation.mk false none).done = false ∧
    (∀ n : ℕ, ((fun _ : ℕ => Operation.mk false none) n).done = false) ∧
    (waitForOperation (fun _ => Operation.mk false none)
        (Operation.mk false none) "file").2.2.take 6 =
      [1, 1, 1, 1, 3 / 2, 9 / 4] :=
  ⟨rfl, fun _ => rfl,
    C1_amended_backoff_sequence (fun _ => Operation.mk false none)
      (Operation.mk false none) "file" rfl (fun _ => rfl)⟩

/-- Claim C3.  A job still not done after `MAX_POLL_ATTEMPTS` status
fetches makes the poller fail with the timeout error whose message
states `MAX_POLL_ATTEMPTS * POLL_INTERVAL = 180` elapsed seconds; a done
job with falsy error succeeds; a done job with truthy error fails with
the import-failure error carrying that error value. -/
theorem C3_completion_outcomes (polls : ℕ → Operation)
    (operation : Operation) (fileName : String) :
    (operation.done = false → (∀ n, (polls n).done = false) →
      (waitForOperation polls operation fileName).1 =
        .error (.timeoutError (timeoutMessage fileName)) ∧
      (waitForOperation polls operation fileName).2.1 = MAX_POLL_ATTEMPTS ∧
      MAX_POLL_ATTEMPTS * POLL_INTERVAL = 180 ∧
      timeoutMessage "doc.txt" =
        "Indexing operation for doc.txt timed out after 180 seconds") ∧
    (operation.done = true → truthy operation.error = false →
      (waitForOperation polls operation fileName).1 = .ok ()) ∧
    (operation.done = true → truthy operation.error = true →
      (waitForOperation polls operation fileName).1 =
        .error (.runtimeError
          (importFailedMessage fileName (operation.error.getD "")))) := by
  refine ⟨?_, ?_, ?_⟩
  · intro hop hpolls
    obtain ⟨hdone, hcount⟩ := waitLoop_never_done polls hpolls MAX_POLL_ATTEMPTS
      operation 0 INITIAL_POLL_INTERVAL rfl (by omega) hop
    unfold waitForOperation
    refine ⟨?_, hcount, by norm_num [MAX_POLL_ATTEMPTS, POLL_INTERVAL], by rfl⟩
    simp [validateOperationCompletion, hdone]
  · intro hop herr
    unfold waitForOperation
    rw [waitLoop_done polls operation 0 INITIAL_POLL_INTERVAL hop]
    simp [validateOperationCompletion, hop, herr]
  · intro hop herr
    unfold waitForOperation
    rw [waitLoop_done polls operation 0 INITIAL_POLL_INTERVAL hop]
    simp [validateOperationCompletion, hop, herr]

/-- Witness for C3 at concrete jobs: a never-done job times out, a done
job with error `"X"` fails carrying `"X"`, a done error-free job
succeeds. -/
theorem C3_completion_outcomes_witness :
    (waitForOperation (fun _ => Operation.mk false none)
        (Operation.mk false none) "f").1 =
      .error (.timeoutError (timeoutMessage "f")) ∧
    (waitForOperation (fun _ => Operation.mk false none)
        (Operation.mk true none) "f").1 = .ok () ∧
    (waitForOperation (fun _ => Operation.mk false none)
        (Operation.mk true (some "X")) "f").1 =
      .error (.runtimeError (importFailedMessage "f" "X")) :=
  ⟨((C3_completion_outcomes (fun _ => Operation.mk false none)
      (Operation.mk false none) "f").1 rfl (fun _ => rfl)).1,
    (C3_completion_outcomes (fun _ => Operation.mk false none)
      (Operation.mk true none) "f").2.1 rfl rfl,
    (C3_completion_outcomes (fun _ => Operation.mk false none)
      (Operation.mk true (some "X")) "f").2.2 rfl rfl⟩

/-- Claim C8.  In every run of the poller, the sequence of sleep
intervals is monotonically non-decreasing, starts at
`INITIAL_POLL_INTERVAL` (when any sleep occurs), and never exceeds
`MAX_POLL_INTERVAL`. -/
theorem C8_backoff_monotone_bounded (polls : ℕ → Operation)
    (operation : Operation) (fileName : String) :
    List.Chain' (· ≤ ·) (waitForOperation polls operation fileName).2.2 ∧
    (∀ x ∈ (waitForOperation polls operation fileName).2.2,
      x ≤ MAX_POLL_INTERVAL) ∧
    ((waitForOperation polls operation fileName).2.2 = [] ∨
      (waitForOperation polls operation fileName).2.2.head? =
        some INITIAL_POLL_INTERVAL) := by
  have h := waitLoop_sleeps_invariant polls MAX_POLL_ATTEMPTS operation 0
    INITIAL_POLL_INTERVAL rfl (by norm_num [INITIAL_POLL_INTERVAL])
    (by norm_num [INITIAL_POLL_INTERVAL, MAX_POLL_INTERVAL])
  exact h

/-- Witness for C8 at a concrete never-done run. -/
theorem C8_backoff_monotone_bounded_witness :
    List.Chain' (· ≤ ·) (waitForOperation (fun _ => Operation.mk false none)
      (Operation.mk false none) "f").2.2 ∧
    (∀ x ∈ (waitForOperation (fun _ => Operation.mk false none)
        (Operation.mk false none) "f").2.2, x ≤ MAX_POLL_INTERVAL) ∧
    ((waitForOperation (fun _ => Operation.mk false none)
        (Operation.mk false none) "f").2.2 = [] ∨
      (waitForOperation (fun _ => Operation.mk false none)
          (Operation.mk false none) "f").2.2.head? =
        some INITIAL_POLL_INTERVAL) :=
  C8_backoff_monotone_bounded (fun _ => Operation.mk false none)
    (Operation.mk false none) "f"

/-- Claim C10.  A handle already done on entry short-circuits the
poller: zero sleeps, zero status fetches, and the outcome is exactly the
validation of the handle passed in — success on a falsy error field,
failure carrying the error on a truthy one — independent of what any
fetch would have returned. -/
theorem C10_already_done_short_circuit (polls : ℕ → Operation)
    (operation : Operation) (fileName : String)
    (hop : operation.done = true) :
    waitForOperation polls operation fileName =
      (validateOperationCompletion operation fileName, 0, []) ∧
    (truthy operation.error = false →
      (waitForOperation polls operation fileName).1 = .ok ()) ∧
    (truthy operation.error = true →
      (waitForOperation polls operation fileName).1 =
        .error (.runtimeError
          (importFailedMessage fileName (operation.error.getD "")))) := by
  have hloop := waitLoop_done polls operation 0 INITIAL_POLL_INTERVAL hop
  refine ⟨?_, ?_, ?_⟩
  · unfold waitForOperation
    rw [hloop]
  · intro herr
    unfold waitForOperation
    rw [hloop]
    simp [validateOperationCompletion, hop, herr]
  · intro herr
    unfold waitForOperation
    rw [hloop]
    simp [validateOperationCompletion, hop, herr]

/-- Witness for C10 at a concrete done handle, under a poll stream that
would report not-done forever if it were ever consulted. -/
theorem C10_already_done_short_circuit_witness :
    (Operation.mk true (some "boom")).done = true ∧
    waitForOperation (fun _ => Operation.mk false none)
        (Operation.mk true (some "boom")) "f" =
      (validateOperationCompletion (Operation.mk true (some "boom")) "f", 0, []) :=
  ⟨rfl,
    (C10_already_done_short_circuit (fun _ => Operation.mk false none)
      (Operation.mk true (some "boom")) "f" rfl).1⟩

/-! ## Helper lemmas about the chunked downloader -/

/-- Running the download loop over a span of calls that all report
not-complete appends every chunk of the span and ends with
`chunk_count = maxChunks`. -/
theorem downloadToBufferLoop_never_complete (s : ChunkStream) (maxChunks : ℕ) :
    ∀ (fuel chunkCount : ℕ) (buffer : List ℕ),
      maxChunks - chunkCount = fuel → chunkCount ≤ maxChunks →
      (∀ j, chunkCount ≤ j → j < maxChunks → s.completeAt j = false) →
      downloadToBufferLoop s maxChunks chunkCount buffer =
        (maxChunks, buffer ++ (List.range' chunkCount fuel).flatMap s.chunk) := by
  intro fuel
  induction fuel with
  | zero =>
    intro chunkCount buffer hfuel hle _
    have : chunkCount = maxChunks := by omega
    rw [downloadToBufferLoop]
    simp [this]
  | succ n ih =>
    intro chunkCount buffer hfuel hle hnc
    have hlt : chunkCount < maxChunks := by omega
    rw [downloadToBufferLoop]
    simp only [hlt, dite_true, hnc chunkCount le_rfl hlt, if_false, Bool.false_eq_true]
    rw [ih (chunkCount + 1) (buffer ++ s.chunk chunkCount) (by omega) (by omega)
      (fun j h1 h2 => hnc j (by omega) h2)]
    rw [List.range'_succ, List.flatMap_cons, List.append_assoc]

/-- Running the download loop up to the first call that reports
completion appends the chunks of all calls through that one and ends
with `chunk_count` equal to that call's index. -/
theorem downloadToBufferLoop_complete_at (s : ChunkStream) (maxChunks t : ℕ)
    (ht : s.completeAt t = true) (htm : t < maxChunks) :
    ∀ (fuel chunkCount : ℕ) (buffer : List ℕ),
      t - chunkCount = fuel → chunkCount ≤ t →
      (∀ j, chunkCount ≤ j → j < t → s.completeAt j = false) →
      downloadToBufferLoop s maxChunks chunkCount buffer =
        (t, buffer ++ (List.range' chunkCount (fuel + 1)).flatMap s.chunk) := by
  intro fuel
  induction fuel with
  | zero =>
    intro chunkCount buffer hfuel hle _
    have hct : chunkCount = t := by omega
    subst hct
    rw [downloadToBufferLoop]
    simp [Nat.lt_of_le_of_lt hle htm, ht, List.range'_succ]
  | succ n ih =>
    intro chunkCount buffer hfuel hle hnc
    have hlt : chunkCount < t := by omega
    rw [downloadToBufferLoop]
    simp only [Nat.lt_trans hlt htm, dite_true,
      hnc chunkCount le_rfl hlt, if_false, Bool.false_eq_true]
    rw [ih (chunkCount + 1) (buffer ++ s.chunk chunkCount) (by omega) (by omega)
      (fun j h1 h2 => hnc j (by omega) h2)]
    simp [List.range'_succ, List.flatMap_cons, List.append_assoc]

/-! ## Claim theorems — the chunked downloader -/

/-- Claim C4.  If the stream reports completion on chunk `k` with
`k ≤ getMaxChunks` (the `MAX_FILE_SIZE_MB = 100` chunk ceiling), the
download returns exactly the concatenated bytes of chunks `1..k`, read
from the start of the assembled buffer; if the stream never reports
completion within the ceiling, the download fails with the
`ValueError("File download exceeded size limit")`. -/
theorem C4_chunked_download (s : ChunkStream) :
    (∀ k, 1 ≤ k → k ≤ getMaxChunks → s.completeAt (k - 1) = true →
      (∀ j, j < k - 1 → s.completeAt j = false) →
      downloadToBuffer s = .ok ((List.range k).flatMap s.chunk)) ∧
    ((∀ j, j < getMaxChunks → s.completeAt j = false) →
      downloadToBuffer s = .error (.valueError "File download exceeded size limit")) := by
  constructor
  · intro k h1 hceil hc hprev
    have hmax : getMaxChunks = 100 := rfl
    have ht : k - 1 < getMaxChunks := by omega
    unfold downloadToBuffer
    rw [downloadToBufferLoop_complete_at s getMaxChunks (k - 1) hc ht (k - 1) 0 []
      rfl (Nat.zero_le _) (fun j _ hj => hprev j hj)]
    have hk : k - 1 + 1 = k := by omega
    rw [hk]
    have hval : validateChunkCount (k - 1) getMaxChunks = .ok () := by
      unfold validateChunkCount
      rw [if_neg (by omega)]
    simp only [hval, List.nil_append, List.range_eq_range']
  · intro hnc
    unfold downloadToBuffer
    rw [downloadToBufferLoop_never_complete s getMaxChunks getMaxChunks 0 []
      rfl (Nat.zero_le _) (fun j _ hj => hnc j hj)]
    have hval : validateChunkCount getMaxChunks getMaxChunks =
        .error (.valueError "File download exceeded size limit") := by
      unfold validateChunkCount
      rw [if_pos le_rfl]
    simp only [hval]

/-- Witness for C4: a stream completing on the first chunk yields that
chunk's bytes; a never-completing stream yields the size-limit error. -/
theorem C4_chunked_download_witness :
    (ChunkStream.mk (fun n => [n, n + 7]) (fun n => n == 0)).completeAt 0 = true ∧
    downloadToBuffer (ChunkStream.mk (fun n => [n, n + 7]) (fun n => n == 0)) =
      .ok ((List.range 1).flatMap fun n => [n, n + 7]) ∧
    downloadToBuffer (ChunkStream.mk (fun n => [n]) (fun _ => false)) =
      .error (.valueError "File download exceeded size limit") :=
  ⟨rfl,
    (C4_chunked_download (ChunkStream.mk (fun n => [n, n + 7]) (fun n => n == 0))).1
      1 le_rfl (by norm_num [getMaxChunks, MAX_FILE_SIZE_MB]) rfl
      (fun j hj => absurd hj (Nat.not_lt_zero j)),
    (C4_chunked_download (ChunkStream.mk (fun n => [n]) (fun _ => false))).2
      (fun _ _ => rfl)⟩

/-! ## Helper lemmas about pagination -/

/-- Running the pagination loop over a span of responses that all carry
a truthy token accumulates every page of the span and ends with
`page_count = maxPages`. -/
theorem fetchAllFilesLoop_all_tokens (pages : ℕ → Page) (maxPages : ℕ) :
    ∀ (fuel pageCount : ℕ) (files : List FileRec),
      maxPages - pageCount = fuel → pageCount ≤ maxPages →
      (∀ j, pageCount ≤ j → j < maxPages → truthy (pages j).nextPageToken = true) →
      fetchAllFilesLoop pages maxPages pageCount files =
        (files ++ (List.range' pageCount fuel).flatMap (fun i => (pages i).files),
          maxPages) := by
  intro fuel
  induction fuel with
  | zero =>
    intro pageCount files hfuel hle _
    have : pageCount = maxPages := by omega
    rw [fetchAllFilesLoop]
    simp [this]
  | succ n ih =>
    intro pageCount files hfuel hle htok
    have hlt : pageCount < maxPages := by omega
    rw [fetchAllFilesLoop]
    simp only [hlt, dite_true, htok pageCount le_rfl hlt, if_true]
    rw [ih (pageCount + 1) (files ++ (pages pageCount).files) (by omega) (by omega)
      (fun j h1 h2 => htok j (by omega) h2)]
    rw [List.range'_succ, List.flatMap_cons, List.append_assoc]

/-- Running the pagination loop up to the first response whose token is
falsy accumulates the pages through that one and ends with `page_count`
equal to that response's index. -/
theorem fetchAllFilesLoop_break_at (pages : ℕ → Page) (maxPages t : ℕ)
    (ht : truthy (pages t).nextPageToken = false) (htm : t < maxPages) :
    ∀ (fuel pageCount : ℕ) (files : List FileRec),
      t - pageCount = fuel → pageCount ≤ t →
      (∀ j, pageCount ≤ j → j < t → truthy (pages j).nextPageToken = true) →
      fetchAllFilesLoop pages maxPages pageCount files =
        (files ++ (List.range' pageCount (fuel + 1)).flatMap (fun i => (pages i).files),
          t) := by
  intro fuel
  induction fuel with
  | zero =>
    intro pageCount files hfuel hle _
    have hct : pageCount = t := by omega
    subst hct
    rw [fetchAllFilesLoop]
    simp [Nat.lt_of_le_of_lt hle htm, ht, List.range'_succ]
  | succ n ih =>
    intro pageCount files hfuel hle htok
    have hlt : pageCount < t := by omega
    rw [fetchAllFilesLoop]
    simp only [Nat.lt_trans hlt htm, dite_true,
      htok pageCount le_rfl hlt, if_true]
    rw [ih (pageCount + 1) (files ++ (pages pageCount).files) (by omega) (by omega)
      (fun j h1 h2 => htok j (by omega) h2)]
    simp [List.range'_succ, List.flatMap_cons, List.append_assoc]

/-! ## Claim theorems — pagination -/

/-- Claim C5.  A listing spanning `N` pages with `N` below the 100-page
ceiling returns the exact concatenation of the pages' file lists in page
order with no warning; if every page up to the ceiling carries a token,
the listing stops at 100 pages, logs the page-limit warning, and returns
the partial accumulated result (non-empty as soon as the first page is)
rather than failing. -/
theorem C5_pagination_concatenation (pages : ℕ → Page) :
    (∀ N, 1 ≤ N → N < getMaxPages →
      truthy (pages (N - 1)).nextPageToken = false →
      (∀ j, j < N - 1 → truthy (pages j).nextPageToken = true) →
      fetchAllFiles pages =
        ((List.range N).flatMap (fun i => (pages i).files), [])) ∧
    ((∀ j, j < getMaxPages → truthy (pages j).nextPageToken = true) →
      fetchAllFiles pages =
        ((List.range getMaxPages).flatMap (fun i => (pages i).files),
          [⟨.warning, pageLimitWarning getMaxPages⟩]) ∧
      ((pages 0).files ≠ [] → (fetchAllFiles pages).1 ≠ [])) := by
  constructor
  · intro N h1 hceil htok hprev
    have hmax : getMaxPages = 100 := rfl
    have ht : N - 1 < getMaxPages := by omega
    unfold fetchAllFiles
    rw [fetchAllFilesLoop_break_at pages getMaxPages (N - 1) htok ht (N - 1) 0 []
      rfl (Nat.zero_le _) (fun j _ hj => hprev j hj)]
    have hk : N - 1 + 1 = N := by omega
    rw [hk]
    have hchk : checkPageLimit (N - 1) = [] := by
      unfold checkPageLimit
      rw [if_neg (by omega)]
    simp only [hchk, List.nil_append, List.range_eq_range']
  · intro htok
    have hloop := fetchAllFilesLoop_all_tokens pages getMaxPages getMaxPages 0 []
      rfl (Nat.zero_le _) (fun j _ hj => htok j hj)
    have hchk : checkPageLimit getMaxPages = [⟨.warning, pageLimitWarning getMaxPages⟩] := by
      unfold checkPageLimit
      rw [if_pos le_rfl]
    constructor
    · unfold fetchAllFiles
      rw [hloop]
      simp only [hchk, List.nil_append, List.range_eq_range']
    · intro hne
      unfold fetchAllFiles
      rw [hloop]
      simp only [List.nil_append]
      have : getMaxPages = 99 + 1 := rfl
      rw [this, List.range'_succ, List.flatMap_cons]
      simp only [ne_eq, List.append_eq_nil, not_and]
      intro h0
      exact absurd h0 hne

/-- Witness for C5: a two-page listing (below the ceiling) concatenates
both pages; a listing whose every response carries a token warns and
returns the first hundred pages. -/
theorem C5_pagination_concatenation_witness :
    truthy ((fun n => Page.mk [⟨some (toString n), none, none, none⟩]
        (if n = 0 then some "tok" else none)) 1).nextPageToken = false ∧
    fetchAllFiles (fun n => Page.mk [⟨some (toString n), none, none, none⟩]
        (if n = 0 then some "tok" else none)) =
      ((List.range 2).flatMap
        (fun i => ((fun n => Page.mk [⟨some (toString n), none, none, none⟩]
          (if n = 0 then some "tok" else none)) i).files), []) ∧
    fetchAllFiles (fun n => Page.mk [⟨some (toString n), none, none, none⟩]
        (some "tok")) =
      ((List.range getMaxPages).flatMap
        (fun i => ((fun n => Page.mk [⟨some (toString n), none, none, none⟩]
          (some "tok")) i).files),
        [⟨.warning, pageLimitWarning getMaxPages⟩]) :=
  ⟨rfl,
    (C5_pagination_concatenation (fun n => Page.mk [⟨some (toString n), none, none, none⟩]
        (if n = 0 then some "tok" else none))).1 2 (by norm_num)
      (by norm_num [getMaxPages]) rfl
      (fun j hj => by
        have hj0 : j = 0 := by omega
        subst hj0
        rfl),
    ((C5_pagination_concatenation (fun n => Page.mk [⟨some (toString n), none, none, none⟩]
        (some "tok"))).2 (fun j _ => rfl)).1⟩

/-! ## Claim theorems — the size guard -/

/-- Claim C6.  For every remote-reported size `S` in bytes: if
`S / 1MB` exceeds `MAX_FILE_SIZE_MB` the guard fails with the too-large
`ValueError` whose message names the file, the actual megabyte size and
the limit; if `S = 0` it succeeds while logging the empty-file warning;
any other in-limit size succeeds. -/
theorem C6_size_guard (S : ℕ) (fileName : String) :
    ((S : ℚ) / (1024 * 1024) > (MAX_FILE_SIZE_MB : ℚ) →
      validateFileSize ⟨some S, some fileName⟩ =
        (.error (.valueError (tooLargeMessage fileName ((S : ℚ) / (1024 * 1024)))),
          [])) ∧
    (validateFileSize ⟨some 0, some fileName⟩ =
      (.ok (), [⟨.warning, emptyFileWarning fileName⟩])) ∧
    (¬ (S : ℚ) / (1024 * 1024) > (MAX_FILE_SIZE_MB : ℚ) →
      (validateFileSize ⟨some S, some fileName⟩).1 = .ok ()) ∧
    tooLargeMessage fileName ((S : ℚ) / (1024 * 1024)) =
      "File " ++ fileName ++ " is too large (" ++
        formatOneDecimal ((S : ℚ) / (1024 * 1024)) ++
        "MB). Maximum size is 100MB" := by
  refine ⟨?_, ?_, ?_, ?_⟩
  · intro hgt
    have hS : ¬ S = 0 := by
      intro h0
      rw [h0] at hgt
      norm_num [MAX_FILE_SIZE_MB] at hgt
    unfold validateFileSize
    simp only [Option.getD_some]
    rw [if_neg hS, if_pos hgt]
  · unfold validateFileSize
    norm_num
  · intro hle
    unfold validateFileSize
    simp only [Option.getD_some]
    rw [if_neg hle]
  · unfold tooLargeMessage
    simp only [String.append_assoc]
    rfl

/-- Witness for C6 at concrete sizes: 200 MiB is rejected, the empty
file passes with a warning, 1 byte passes. -/
theorem C6_size_guard_witness :
    ((209715200 : ℚ) / (1024 * 1024) > (MAX_FILE_SIZE_MB : ℚ)) ∧
    validateFileSize ⟨some 209715200, some "big.bin"⟩ =
      (.error (.valueError
        (tooLargeMessage "big.bin" ((209715200 : ℚ) / (1024 * 1024)))), []) ∧
    validateFileSize ⟨some 0, some "empty.txt"⟩ =
      (.ok (), [⟨.warning, emptyFileWarning "empty.txt"⟩]) ∧
    (validateFileSize ⟨some 1, some "tiny.txt"⟩).1 = .ok () :=
  ⟨by norm_num [MAX_FILE_SIZE_MB],
    (C6_size_guard 209715200 "big.bin").1 (by norm_num [MAX_FILE_SIZE_MB]),
    (C6_size_guard 0 "empty.txt").2.1,
    (C6_size_guard 1 "tiny.txt").2.2.1 (by norm_num [MAX_FILE_SIZE_MB])⟩

/-- Claim C9.  Metadata that omits the size field is treated exactly as
size 0: the guard succeeds with the empty-file warning, so the
pre-download check never rejects a file whose size the remote does not
report (the guard consults only the fetched metadata, which the
embedding makes explicit by taking nothing else as input). -/
theorem C9_missing_size_is_zero (nameOpt : Option String) :
    validateFileSize ⟨none, nameOpt⟩ = validateFileSize ⟨some 0, nameOpt⟩ ∧
    validateFileSize ⟨none, nameOpt⟩ =
      (.ok (), [⟨.warning, emptyFileWarning (nameOpt.getD "unknown")⟩]) := by
  constructor
  · rfl
  · unfold validateFileSize
    norm_num

/-! ## Helper lemmas about the batch orchestrator -/

/-- The batch log over an appended file list splits at the append, with
the running 1-based index carried across. -/
theorem processAllFilesFrom_append (ops : FileOps) (total : ℕ)
    (l1 l2 : List FileRec) :
    ∀ fileIndex : ℕ,
      processAllFilesFrom ops total fileIndex (l1 ++ l2) =
        processAllFilesFrom ops total fileIndex l1 ++
          processAllFilesFrom ops total (fileIndex + l1.length) l2 := by
  induction l1 with
  | nil =>
    intro fileIndex
    simp [processAllFilesFrom]
  | cons a l ih =>
    intro fileIndex
    simp only [List.cons_append, processAllFilesFrom, List.length_cons,
      List.append_eq, ih, List.append_assoc]
    have h : fileIndex + 1 + l.length = fileIndex + (l.length + 1) := by omega
    rw [h]

/-- A file on which `_process_file` raises contributes exactly its
progress line and one caught-error line to the batch log, and the rest
of the batch is processed unchanged. -/
theorem processAllFiles_isolates (ops : FileOps) (pre post : List FileRec)
    (fi : FileRec) (e : PyError)
    (hfail : processFile ops (fi.id.getD "") (fi.name.getD "")
      (fi.mimeType.getD "application/octet-stream") = .error e) :
    processAllFiles ops (pre ++ fi :: post) =
      processAllFilesFrom ops (pre.length + post.length + 1) 1 pre ++
        processingEvent (pre.length + 1) (pre.length + post.length + 1)
            (fi.name.getD "") (fi.mimeType.getD "application/octet-stream")
          :: caughtErrorEvent (fi.name.getD "") e
          :: processAllFilesFrom ops (pre.length + post.length + 1)
              (pre.length + 2) post := by
  unfold processAllFiles
  have hlen : (pre ++ fi :: post).length = pre.length + post.length + 1 := by
    simp
    omega
  rw [hlen, processAllFilesFrom_append]
  congr 1
  simp only [processAllFilesFrom, processFileSafely, hfail]
  have h1 : 1 + pre.length = pre.length + 1 := by omega
  have h2 : pre.length + 1 + 1 = pre.length + 2 := by omega
  rw [h1, h2]
  rfl

/-! ## Claim theorems — the batch orchestrator -/

/-- Claim C2.  Every per-file error of any exception kind is caught by
the batch orchestrator, logged with the file name, and converted into
skipping that file: the batch log equals the unchanged processing of the
files before it, the progress line and the caught-error line (whose
message carries the file name) for the failing file, and the unchanged
processing of every file after it.  The orchestrator is total — it
returns the batch log for every input and never re-raises. -/
theorem C2_per_file_errors_isolated (ops : FileOps) (pre post : List FileRec)
    (fi : FileRec) (e : PyError)
    (hfail : processFile ops (fi.id.getD "") (fi.name.getD "")
      (fi.mimeType.getD "application/octet-stream") = .error e) :
    processAllFiles ops (pre ++ fi :: post) =
      processAllFilesFrom ops (pre.length + post.length + 1) 1 pre ++
        processingEvent (pre.length + 1) (pre.length + post.length + 1)
            (fi.name.getD "") (fi.mimeType.getD "application/octet-stream")
          :: caughtErrorEvent (fi.name.getD "") e
          :: processAllFilesFrom ops (pre.length + post.length + 1)
              (pre.length + 2) post :=
  processAllFiles_isolates ops pre post fi e hfail

/-- Witness for C2: a concrete batch of two files whose first file's
download raises; the second file is still processed and the batch log is
exactly the isolated shape. -/
theorem C2_per_file_errors_isolated_witness :
    processFile
        (FileOps.mk (fun _ => .error (.otherException "boom"))
          (fun _ _ _ => .ok (UploadedFile.mk (some "files/u1")))
          (fun _ => .ok ()))
        ((FileRec.mk (some "id1") (some "a.txt") (some "text/plain") none).id.getD "")
        ((FileRec.mk (some "id1") (some "a.txt") (some "text/plain") none).name.getD "")
        ((FileRec.mk (some "id1") (some "a.txt") (some "text/plain") none).mimeType.getD
          "application/octet-stream") =
      .error (.otherException "boom") ∧
    processAllFiles
        (FileOps.mk (fun _ => .error (.otherException "boom"))
          (fun _ _ _ => .ok (UploadedFile.mk (some "files/u1")))
          (fun _ => .ok ()))
        ([] ++ FileRec.mk (some "id1") (some "a.txt") (some "text/plain") none
          :: [FileRec.mk (some "id2") (some "b.txt") (some "text/plain") none]) =
      processAllFilesFrom
          (FileOps.mk (fun _ => .error (.otherException "boom"))
            (fun _ _ _ => .ok (UploadedFile.mk (some "files/u1")))
            (fun _ => .ok ()))
          ((List.length ([] : List FileRec)) +
            (List.length [FileRec.mk (some "id2") (some "b.txt") (some "text/plain") none]) + 1)
          1 [] ++
        processingEvent ((List.length ([] : List FileRec)) + 1)
            ((List.length ([] : List FileRec)) +
              (List.length [FileRec.mk (some "id2") (some "b.txt") (some "text/plain") none]) + 1)
            ((FileRec.mk (some "id1") (some "a.txt") (some "text/plain") none).name.getD "")
            ((FileRec.mk (some "id1") (some "a.txt") (some "text/plain") none).mimeType.getD
              "application/octet-stream")
          :: caughtErrorEvent
              ((FileRec.mk (some "id1") (some "a.txt") (some "text/plain") none).name.getD "")
              (.otherException "boom")
          :: processAllFilesFrom
              (FileOps.mk (fun _ => .error (.otherException "boom"))
                (fun _ _ _ => .ok (UploadedFile.mk (some "files/u1")))
                (fun _ => .ok ()))
              ((List.length ([] : List FileRec)) +
                (List.length [FileRec.mk (some "id2") (some "b.txt") (some "text/plain") none]) + 1)
              ((List.length ([] : List FileRec)) + 2)
              [FileRec.mk (some "id2") (some "b.txt") (some "text/plain") none] :=
  ⟨rfl,
    C2_per_file_errors_isolated
      (FileOps.mk (fun _ => .error (.otherException "boom"))
        (fun _ _ _ => .ok (UploadedFile.mk (some "files/u1")))
        (fun _ => .ok ()))
      [] [FileRec.mk (some "id2") (some "b.txt") (some "text/plain") none]
      (FileRec.mk (some "id1") (some "a.txt") (some "text/plain") none)
      (.otherException "boom") rfl⟩

/-- Claim C7.  When the upload acknowledges with a blob handle whose
name is empty or missing, `_process_file` fails with the
upload-invariant `RuntimeError` before any import job is started — the
outcome is the same for every possible importer, which is therefore
never consulted — and at the batch level the file is skipped (one
progress line, one logged unexpected-error line carrying the message)
while the rest of the batch is processed unchanged. -/
theorem C7_empty_upload_handle (ops : FileOps) (fi : FileRec)
    (pre post : List FileRec) (content : List ℕ) (uploaded : UploadedFile)
    (hdl : ops.download (fi.id.getD "") = .ok content)
    (hup : ops.upload content (fi.name.getD "")
      (fi.mimeType.getD "application/octet-stream") = .ok uploaded)
    (hname : truthy uploaded.name = false) :
    (∀ imp : String → Except PyError Unit,
      processFile (FileOps.mk ops.download ops.upload imp) (fi.id.getD "")
          (fi.name.getD "") (fi.mimeType.getD "application/octet-stream") =
        .error (.runtimeError (noNameMessage (fi.name.getD "")))) ∧
    processAllFiles ops (pre ++ fi :: post) =
      processAllFilesFrom ops (pre.length + post.length + 1) 1 pre ++
        processingEvent (pre.length + 1) (pre.length + post.length + 1)
            (fi.name.getD "") (fi.mimeType.getD "application/octet-stream")
          :: caughtErrorEvent (fi.name.getD "")
              (.runtimeError (noNameMessage (fi.name.getD "")))
          :: processAllFilesFrom ops (pre.length + post.length + 1)
              (pre.length + 2) post := by
  have hone : ∀ imp : String → Except PyError Unit,
      processFile (FileOps.mk ops.download ops.upload imp) (fi.id.getD "")
          (fi.name.getD "") (fi.mimeType.getD "application/octet-stream") =
        .error (.runtimeError (noNameMessage (fi.name.getD ""))) := by
    intro imp
    simp only [processFile, hdl, hup, validateUploadedFileName, hname,
      Bool.false_eq_true, if_false, bind, Except.bind]
  refine ⟨hone, ?_⟩
  exact processAllFiles_isolates ops pre post fi
    (.runtimeError (noNameMessage (fi.name.getD ""))) (hone ops.importFile)

/-- Witness for C7: a concrete upload returning the empty-string handle
makes the file fail with the no-name error even under an importer that
would itself fail if it were ever started. -/
theorem C7_empty_upload_handle_witness :
    (FileOps.mk (fun _ => .ok [1, 2])
        (fun _ _ _ => .ok (UploadedFile.mk (some "")))
        (fun _ => .ok ())).download
        ((FileRec.mk (some "id9") (some "c.pdf") (some "application/pdf") none).id.getD "") =
      .ok [1, 2] ∧
    truthy (UploadedFile.mk (some "")).name = false ∧
    processFile
        (FileOps.mk
          (FileOps.mk (fun _ => .ok [1, 2])
            (fun _ _ _ => .ok (UploadedFile.mk (some "")))
            (fun _ => .ok ())).download
          (FileOps.mk (fun _ => .ok [1, 2])
            (fun _ _ _ => .ok (UploadedFile.mk (some "")))
            (fun _ => .ok ())).upload
          (fun _ => .error (.otherException "import must never start")))
        ((FileRec.mk (some "id9") (some "c.pdf") (some "application/pdf") none).id.getD "")
        ((FileRec.mk (some "id9") (some "c.pdf") (some "application/pdf") none).name.getD "")
        ((FileRec.mk (some "id9") (some "c.pdf") (some "application/pdf") none).mimeType.getD
          "application/octet-stream") =
      .error (.runtimeError (noNameMessage
        ((FileRec.mk (some "id9") (some "c.pdf") (some "application/pdf") none).name.getD ""))) :=
  ⟨rfl, rfl,
    (C7_empty_upload_handle
      (FileOps.mk (fun _ => .ok [1, 2])
        (fun _ _ _ => .ok (UploadedFile.mk (some "")))
        (fun _ => .ok ()))
      (FileRec.mk (some "id9") (some "c.pdf") (some "application/pdf") none)
      [] [] [1, 2] (UploadedFile.mk (some "")) rfl rfl rfl).1
      (fun _ => .error (.otherException "import must never start"))⟩
